import Mathlib

/-!
Verification of the WiZ bulb controller core (`wiz_bulb_controller.py`) and the
status-interpretation / tool layer (`smart_bulb_server.py`).

The embedding models JSON documents, one UDP command exchange as a channel
behavior (reply parsed / reply garbled / timeout / transport error), the
controller operations, the server-side tools the claims mention, and the
discovery scanner.
-/

namespace WizBulb

/-- JSON values, as produced by `json.loads`. Objects are association lists
with distinct keys (Python dicts). -/
inductive Json where
  | null : Json
  | bool : Bool → Json
  | int : Int → Json
  | str : String → Json
  | arr : List Json → Json
  | obj : List (String × Json) → Json

/-- Dictionary key lookup (Python `d[k]` / membership test `k in d`). -/
def Json.lookup (kvs : List (String × Json)) (k : String) : Option Json :=
  match kvs with
  | [] => none
  | (k2, v) :: rest => if k2 = k then some v else Json.lookup rest k

/-- Python truthiness of a JSON value. -/
def Json.truthy : Json → Bool
  | .null => false
  | .bool b => b
  | .int n => n != 0
  | .str s => s != ""
  | .arr xs => !xs.isEmpty
  | .obj kvs => !kvs.isEmpty

/-- Python `j.get(k, d)`: defined only when `j` is a dict; on any other value
the attribute access raises `AttributeError`, modelled as `none`. -/
def Json.getAttrD (j : Json) (k : String) (d : Json) : Option Json :=
  match j with
  | .obj kvs => some ((Json.lookup kvs k).getD d)
  | _ => none

/-- How Python string-interpolates a JSON value (`f-strings` in the server).
Scalar cases follow `str()` exactly; the claims only ever interpolate ints. -/
def Json.display : Json → String
  | .null => "None"
  | .bool true => "True"
  | .bool false => "False"
  | .int n => toString n
  | .str s => s
  | .arr _ => "[...]"
  | .obj _ => "\x7b...\x7d"

/-- Outcome of the single datagram exchange a call to `_send_command`
performs, abstracting the network and the device: a reply arrived and parsed
to `j`; a reply arrived but `json.loads` failed; no reply within the timeout;
or some other socket exception (e.g. at `sendto`). -/
inductive ChannelBehavior where
  | replyWith (j : Json)
  | garbled
  | timeout
  | transportError

/-- What one run of `_send_command` leaves behind: the returned value and
whether `sock.close()` was reached. -/
structure ExchangeTrace where
  result : Option Json
  socketClosed : Bool

/-- `WizBulbController._send_command`, with the socket lifetime made explicit.
The body is `try: socket(); settimeout; sendto; recvfrom; loads; close; return
response` with `except socket.timeout: return None` and
`except Exception: return None`. `sock.close()` is the second-to-last
statement of the `try` block, so it runs only when every earlier statement
succeeded; the two handlers return without closing. -/
def send_command_traced (ch : ChannelBehavior) (_command : Json) : ExchangeTrace :=
  match ch with
  | .replyWith j => ⟨some j, true⟩
  | .garbled => ⟨none, false⟩
  | .timeout => ⟨none, false⟩
  | .transportError => ⟨none, false⟩

/-- The value `_send_command` returns to its caller. -/
def send_command (ch : ChannelBehavior) (command : Json) : Option Json :=
  (send_command_traced ch command).result

/-- The `getPilot` status command. -/
def getPilotCommand : Json := Json.obj [("method", Json.str "getPilot")]

/-- A `setPilot` command with the given params. -/
def setPilotCommand (params : List (String × Json)) : Json :=
  Json.obj [("method", Json.str "setPilot"), ("params", Json.obj params)]

/-- Result of a controller operation: a returned boolean, or a raised Python
exception with its message. -/
inductive OpOutcome where
  | ok (b : Bool)
  | raised (msg : String)

/-- A controller operation result together with the number of
`_send_command` invocations (network exchanges) it performed. -/
structure OpTrace where
  outcome : OpOutcome
  exchanges : Nat

/-- `response is not None and response.get("result", \x7b\x7d).get("success", False)`:
`None` short-circuits to `False`; a reply that is not a dict, or whose
`result` value is not a dict, raises `AttributeError`; otherwise the stored
`success` value is returned and consumed by its truthiness. -/
def interpretSetResponse : Option Json → OpOutcome
  | none => .ok false
  | some r =>
    match r.getAttrD "result" (Json.obj []) with
    | none => .raised "AttributeError"
    | some res =>
      match res.getAttrD "success" (Json.bool false) with
      | none => .raised "AttributeError"
      | some v => .ok v.truthy

/-- `WizBulbController.turn_on`. -/
def turn_on (ch : ChannelBehavior) : OpTrace :=
  ⟨interpretSetResponse (send_command ch (setPilotCommand [("state", Json.bool true)])), 1⟩

/-- `WizBulbController.turn_off`. -/
def turn_off (ch : ChannelBehavior) : OpTrace :=
  ⟨interpretSetResponse (send_command ch (setPilotCommand [("state", Json.bool false)])), 1⟩

/-- `WizBulbController.set_brightness`: raises `ValueError` when the argument
is outside [10,100], before any network I/O. -/
def set_brightness (ch : ChannelBehavior) (brightness : Int) : OpTrace :=
  if ¬ (10 ≤ brightness ∧ brightness ≤ 100) then
    ⟨.raised "Brightness must be between 10 and 100", 0⟩
  else
    ⟨interpretSetResponse (send_command ch (setPilotCommand
      [("state", Json.bool true), ("dimming", Json.int brightness)])), 1⟩

/-- `WizBulbController.set_rgb_color`: raises `ValueError` when any channel
is outside [0,255], then when brightness is outside [10,100]. -/
def set_rgb_color (ch : ChannelBehavior) (r g b brightness : Int) : OpTrace :=
  if ¬ ((0 ≤ r ∧ r ≤ 255) ∧ (0 ≤ g ∧ g ≤ 255) ∧ (0 ≤ b ∧ b ≤ 255)) then
    ⟨.raised "RGB values must be between 0 and 255", 0⟩
  else if ¬ (10 ≤ brightness ∧ brightness ≤ 100) then
    ⟨.raised "Brightness must be between 10 and 100", 0⟩
  else
    ⟨interpretSetResponse (send_command ch (setPilotCommand
      [("state", Json.bool true), ("r", Json.int r), ("g", Json.int g),
       ("b", Json.int b), ("dimming", Json.int brightness)])), 1⟩

/-- `WizBulbController.set_color_temperature`: raises `ValueError` when the
temperature is outside [2200,6500], then when brightness is outside [10,100]. -/
def set_color_temperature (ch : ChannelBehavior) (temp brightness : Int) : OpTrace :=
  if ¬ (2200 ≤ temp ∧ temp ≤ 6500) then
    ⟨.raised "Color temperature must be between 2200K and 6500K", 0⟩
  else if ¬ (10 ≤ brightness ∧ brightness ≤ 100) then
    ⟨.raised "Brightness must be between 10 and 100", 0⟩
  else
    ⟨interpretSetResponse (send_command ch (setPilotCommand
      [("state", Json.bool true), ("temp", Json.int temp),
       ("dimming", Json.int brightness)])), 1⟩

/-- `WizBulbController.set_scene`: performs no range validation; every call
builds the command and goes straight to `_send_command`. -/
def set_scene (ch : ChannelBehavior) (scene_id : Int) : OpTrace :=
  ⟨interpretSetResponse (send_command ch (setPilotCommand
    [("state", Json.bool true), ("sceneId", Json.int scene_id)])), 1⟩

/-- `WizBulbController.set_speed`: raises `ValueError` when the speed is
outside [10,200], before any network I/O. -/
def set_speed (ch : ChannelBehavior) (speed : Int) : OpTrace :=
  if ¬ (10 ≤ speed ∧ speed ≤ 200) then
    ⟨.raised "Speed must be between 10 and 200", 0⟩
  else
    ⟨interpretSetResponse (send_command ch (setPilotCommand
      [("speed", Json.int speed)])), 1⟩

/-- `WizBulbController.get_status`: sends `getPilot` and returns the raw
response (or `None`). -/
def get_status (ch : ChannelBehavior) : Option Json :=
  send_command ch getPilotCommand

/-- `WizBulbController.is_online`: online iff `get_status` returned a parsed
response. -/
def is_online (ch : ChannelBehavior) : Bool :=
  (get_status ch).isSome

/-! ### Server tool layer (`smart_bulb_server.py`) -/

/-- The configured bulb address in `smart_bulb_server.py`. -/
def BULB_IP : String := "192.168.1.8"

/-- The parts of a mutating-tool result dict the claims are about: the
`success` flag, the `error` field when present, and how many network
exchanges the call performed. -/
structure ServerToolResult where
  operation : String
  success : Bool
  error : Option String
  exchanges : Nat

/-- Wrap a controller call in the try/except plus success-dict pattern every
mutating tool uses: a raised exception becomes a returned error dict. -/
def wrapToolCall (operation errPrefix : String) (t : OpTrace) : ServerToolResult :=
  match t.outcome with
  | .ok b => ⟨operation, b, none, t.exchanges⟩
  | .raised msg => ⟨operation, false, some (errPrefix ++ msg), t.exchanges⟩

/-- `turn_bulb_on` tool. -/
def turn_bulb_on (ch : ChannelBehavior) : ServerToolResult :=
  wrapToolCall "turn_on" "Error turning on bulb: " (turn_on ch)

/-- `turn_bulb_off` tool. -/
def turn_bulb_off (ch : ChannelBehavior) : ServerToolResult :=
  wrapToolCall "turn_off" "Error turning off bulb: " (turn_off ch)

/-- `set_bulb_brightness` tool: returns a structured error dict (no network
I/O) when brightness is outside [10,100], else calls the controller. -/
def set_bulb_brightness (ch : ChannelBehavior) (brightness : Int) : ServerToolResult :=
  if ¬ (10 ≤ brightness ∧ brightness ≤ 100) then
    ⟨"set_brightness", false, some "Brightness must be between 10 and 100", 0⟩
  else
    wrapToolCall "set_brightness" "Error setting brightness: " (set_brightness ch brightness)

/-- `set_bulb_rgb_color` tool: returns a structured error dict (no network
I/O) when a channel is outside [0,255] or brightness outside [10,100]. -/
def set_bulb_rgb_color (ch : ChannelBehavior) (r g b brightness : Int) : ServerToolResult :=
  if ¬ ((0 ≤ r ∧ r ≤ 255) ∧ (0 ≤ g ∧ g ≤ 255) ∧ (0 ≤ b ∧ b ≤ 255)) then
    ⟨"set_rgb_color", false, some "RGB values must be between 0 and 255", 0⟩
  else if ¬ (10 ≤ brightness ∧ brightness ≤ 100) then
    ⟨"set_rgb_color", false, some "Brightness must be between 10 and 100", 0⟩
  else
    wrapToolCall "set_rgb_color" "Error setting RGB color: " (set_rgb_color ch r g b brightness)

/-- `set_bulb_color_temperature` tool: returns a structured error dict (no
network I/O) when temperature is outside [2200,6500] or brightness outside
[10,100]. -/
def set_bulb_color_temperature (ch : ChannelBehavior) (temperature brightness : Int) : ServerToolResult :=
  if ¬ (2200 ≤ temperature ∧ temperature ≤ 6500) then
    ⟨"set_color_temperature", false, some "Color temperature must be between 2200K and 6500K", 0⟩
  else if ¬ (10 ≤ brightness ∧ brightness ≤ 100) then
    ⟨"set_color_temperature", false, some "Brightness must be between 10 and 100", 0⟩
  else
    wrapToolCall "set_color_temperature" "Error setting color temperature: "
      (set_color_temperature ch temperature brightness)

/-- `set_bulb_scene` tool: returns a structured error dict (no network I/O)
when the scene id is outside [1,32], else calls the controller (which itself
validates nothing). -/
def set_bulb_scene (ch : ChannelBehavior) (scene_id : Int) : ServerToolResult :=
  if ¬ (1 ≤ scene_id ∧ scene_id ≤ 32) then
    ⟨"set_scene", false, some "Scene ID must be between 1 and 32", 0⟩
  else
    wrapToolCall "set_scene" "Error setting scene: " (set_scene ch scene_id)

/-- `check_bulb_connection` tool: reports the `is_online` probe result. -/
def check_bulb_connection (ch : ChannelBehavior) : ServerToolResult :=
  ⟨"check_connection", is_online ch, none, 1⟩

/-- The dict returned by the `get_bulb_status` tool, with each conditionally
added key modelled as an `Option` field. -/
structure BulbStatusResult where
  bulb_ip : String
  status : String
  error : Option String
  state : Option String
  brightness : Option String
  color : Option String
  color_temperature : Option String
  scene_id : Option Json

/-- The dict `get_bulb_status` builds from the pilot data of a well-shaped
reply: `state` comes from the truthiness of the `state` key, `brightness`
is added when `dimming` is present, `color` when all of `r`,`g`,`b` are
present, else `color_temperature` when `temp` is present, and `scene_id`
independently when `sceneId` is present. -/
def interpretPilot (pilot : List (String × Json)) : BulbStatusResult :=
  { bulb_ip := BULB_IP
    status := "online"
    error := none
    state := some (if ((Json.lookup pilot "state").getD (Json.bool false)).truthy
                   then "on" else "off")
    brightness :=
      match Json.lookup pilot "dimming" with
      | some d => some (d.display ++ "%")
      | none => none
    color :=
      match Json.lookup pilot "r", Json.lookup pilot "g", Json.lookup pilot "b" with
      | some r, some g, some b =>
        some ("RGB(" ++ r.display ++ ", " ++ g.display ++ ", " ++ b.display ++ ")")
      | _, _, _ => none
    color_temperature :=
      match Json.lookup pilot "r", Json.lookup pilot "g", Json.lookup pilot "b" with
      | some _, some _, some _ => none
      | _, _, _ =>
        match Json.lookup pilot "temp" with
        | some t => some (t.display ++ "K")
        | none => none
    scene_id := Json.lookup pilot "sceneId" }

/-- The error dict built by the outer `except` handler (the exception is an
`AttributeError` on a non-dict value). -/
def statusErrorResult : BulbStatusResult :=
  ⟨BULB_IP, "error", some "Error getting bulb status: AttributeError",
   none, none, none, none, none⟩

/-- `get_bulb_status` applied to an already-fetched raw status (the value of
`bulb.get_status()`). `None` yields the offline dict. A non-dict reply, or a
`result` value that is not a dict, hits an `AttributeError` in
`status.get("result", \x7b\x7d).get("state", False)` which the outer except
turns into the error dict. Otherwise the pilot data is interpreted by
`interpretPilot`. -/
def get_bulb_status (status : Option Json) : BulbStatusResult :=
  match status with
  | none =>
    ⟨BULB_IP, "offline", some ("Failed to get status from bulb at " ++ BULB_IP),
     none, none, none, none, none⟩
  | some s =>
    match s with
    | Json.obj kvs =>
      match (Json.lookup kvs "result").getD (Json.obj []) with
      | Json.obj pilot => interpretPilot pilot
      | _ => statusErrorResult
    | _ => statusErrorResult

/-! ### Discovery (`discover_bulbs`) -/

/-- Outcome of the external nmap host sweep: the extracted candidate list
when the subprocess completed within its 120s bound, or one of the handled
failure modes (`subprocess.TimeoutExpired`, `FileNotFoundError`, any other
exception). -/
inductive ScanOutcome where
  | ok (ips : List String)
  | timedOut
  | nmapMissing
  | otherError

/-- Whether the probe of one candidate classifies it as a bulb: a
short-timeout controller is built and `is_online` is consulted, i.e. the
candidate counts iff its `getPilot` probe returned any parsed reply. -/
def respondsToProbe (probe : String → ChannelBehavior) (ip : String) : Bool :=
  is_online (probe ip)

/-- The probe loop of `discover_bulbs`: `bulb_ips = []`, then for each
candidate in scan order, append it when `controller.is_online()`. -/
def discoverLoop (probe : String → ChannelBehavior) :
    List String → List String → List String
  | acc, [] => acc
  | acc, ip :: rest =>
    if respondsToProbe probe ip then discoverLoop probe (acc ++ [ip]) rest
    else discoverLoop probe acc rest

/-- `discover_bulbs`: run the sweep, probe each extracted candidate; every
handled failure of the sweep returns the empty list. -/
def discover_bulbs (scan : ScanOutcome) (probe : String → ChannelBehavior) : List String :=
  match scan with
  | .ok ips => discoverLoop probe [] ips
  | .timedOut => []
  | .nmapMissing => []
  | .otherError => []

/-! ### Spec-side definitions, for comparison with the code -/

/-- The reply every mutating operation is supposed to treat as success:
`\x7bresult: \x7bsuccess: true\x7d\x7d`. -/
def successReply : Json :=
  Json.obj [("result", Json.obj [("success", Json.bool true)])]

/-- Success criterion in the words of the spec: a reply datagram was
received, parsed, and contains `result.success == true`. -/
def replySuccess (response : Option Json) : Bool :=
  match response with
  | some (Json.obj kvs) =>
    match Json.lookup kvs "result" with
    | some (Json.obj rkvs) =>
      match Json.lookup rkvs "success" with
      | some (Json.bool true) => true
      | _ => false
    | _ => false
  | _ => false

/-- Replies on which Python truthiness agrees with `== true`: the reply is a
document, its `result` field (if any) is a document, and the `success` field
of that (if any) is a boolean. Replies outside this class make the code
raise `AttributeError` or return a non-boolean truthy value. -/
def wellFormedReply : Json → Bool
  | Json.obj kvs =>
    match Json.lookup kvs "result" with
    | none => true
    | some (Json.obj rkvs) =>
      match Json.lookup rkvs "success" with
      | none => true
      | some (Json.bool _) => true
      | some _ => false
    | some _ => false
  | _ => false

/-- Follows the words of the spec (§4.3, §6): a well-formed status reply
matching the expected response shape is a document with a `result` field
holding a device-state document. Compared against what `is_online`
actually checks. -/
def expectedStatusShape : Json → Bool
  | Json.obj kvs =>
    match Json.lookup kvs "result" with
    | some (Json.obj _) => true
    | _ => false
  | _ => false

/-- The parsed reply an exchange yields, as a function of the channel
behavior alone (the code sends different commands, but the outcome of the
exchange is fixed by the channel). -/
def channelReply (ch : ChannelBehavior) : Option Json :=
  match ch with
  | .replyWith j => some j
  | _ => none

/-- A channel behavior on which the exchange fails: no parsed reply reaches
the caller. -/
def ChannelBehavior.failed : ChannelBehavior → Bool
  | .replyWith _ => false
  | _ => true

/-! ### Helper lemmas -/

/-- `_send_command` returns exactly the channel reply, whatever the command. -/
theorem send_command_eq_channelReply (ch : ChannelBehavior) (cmd : Json) :
    send_command ch cmd = channelReply ch := by
  cases ch <;> rfl

/-- On a failed channel every `_send_command` call returns `None`. -/
theorem send_command_of_failed (ch : ChannelBehavior) (h : ch.failed = true) (cmd : Json) :
    send_command ch cmd = none := by
  cases ch <;> simp_all [ChannelBehavior.failed, send_command, send_command_traced]

/-! ### C1 -/

/-- C1 counterexample: `WizBulbController.set_scene` performs no range
validation at all. Called with the out-of-range `scene_id = 0` against a
channel whose device accepts the command, it issues one network exchange
(not zero) and returns plain success (no InvalidArgument-style error). -/
theorem set_scene_skips_validation_cex :
    (set_scene (ChannelBehavior.replyWith successReply) 0).exchanges = 1
    ∧ (set_scene (ChannelBehavior.replyWith successReply) 0).outcome = OpOutcome.ok true :=
  ⟨rfl, rfl⟩

/-- C1 amended: for out-of-range arguments the MCP tool layer
(`set_bulb_brightness`, `set_bulb_rgb_color`, `set_bulb_color_temperature`,
`set_bulb_scene`) returns a structured error result with `success = false`,
the violated bound, and zero network exchanges; the controller layer raises
`ValueError` before any network I/O (zero exchanges, a raised fault rather
than a returned value) for brightness, RGB, temperature and speed, while
`set_scene` performs no validation and issues its exchange even for an
out-of-range scene id. Animation speed has no tool-layer wrapper. -/
theorem range_validation_tool_and_controller (ch : ChannelBehavior)
    (b r g bl brt temp brt2 sc sp : Int)
    (hb : ¬(10 ≤ b ∧ b ≤ 100))
    (hrgb : ¬((0 ≤ r ∧ r ≤ 255) ∧ (0 ≤ g ∧ g ≤ 255) ∧ (0 ≤ bl ∧ bl ≤ 255)))
    (htemp : ¬(2200 ≤ temp ∧ temp ≤ 6500))
    (hsc : ¬(1 ≤ sc ∧ sc ≤ 32))
    (hsp : ¬(10 ≤ sp ∧ sp ≤ 200)) :
    set_bulb_brightness ch b =
      ⟨"set_brightness", false, some "Brightness must be between 10 and 100", 0⟩
    ∧ set_bulb_rgb_color ch r g bl brt =
      ⟨"set_rgb_color", false, some "RGB values must be between 0 and 255", 0⟩
    ∧ set_bulb_color_temperature ch temp brt2 =
      ⟨"set_color_temperature", false, some "Color temperature must be between 2200K and 6500K", 0⟩
    ∧ set_bulb_scene ch sc =
      ⟨"set_scene", false, some "Scene ID must be between 1 and 32", 0⟩
    ∧ set_brightness ch b = ⟨.raised "Brightness must be between 10 and 100", 0⟩
    ∧ set_rgb_color ch r g bl brt = ⟨.raised "RGB values must be between 0 and 255", 0⟩
    ∧ set_color_temperature ch temp brt2 =
      ⟨.raised "Color temperature must be between 2200K and 6500K", 0⟩
    ∧ set_speed ch sp = ⟨.raised "Speed must be between 10 and 200", 0⟩
    ∧ (set_scene ch sc).exchanges = 1 := by
  refine ⟨?_, ?_, ?_, ?_, ?_, ?_, ?_, ?_, rfl⟩ <;>
    simp [set_bulb_brightness, set_bulb_rgb_color, set_bulb_color_temperature,
      set_bulb_scene, set_brightness, set_rgb_color, set_color_temperature,
      set_speed, hb, hrgb, htemp, hsc, hsp]

/-- C1 witness: instantiation at brightness 0, red channel 256, temperature
7000, scene 33, speed 5, against a timing-out channel. -/
theorem range_validation_tool_and_controller_witness :
    set_bulb_brightness ChannelBehavior.timeout 0 =
      ⟨"set_brightness", false, some "Brightness must be between 10 and 100", 0⟩
    ∧ set_bulb_rgb_color ChannelBehavior.timeout 256 0 0 50 =
      ⟨"set_rgb_color", false, some "RGB values must be between 0 and 255", 0⟩
    ∧ set_bulb_color_temperature ChannelBehavior.timeout 7000 50 =
      ⟨"set_color_temperature", false, some "Color temperature must be between 2200K and 6500K", 0⟩
    ∧ set_bulb_scene ChannelBehavior.timeout 33 =
      ⟨"set_scene", false, some "Scene ID must be between 1 and 32", 0⟩
    ∧ set_brightness ChannelBehavior.timeout 0 =
      ⟨.raised "Brightness must be between 10 and 100", 0⟩
    ∧ set_rgb_color ChannelBehavior.timeout 256 0 0 50 =
      ⟨.raised "RGB values must be between 0 and 255", 0⟩
    ∧ set_color_temperature ChannelBehavior.timeout 7000 50 =
      ⟨.raised "Color temperature must be between 2200K and 6500K", 0⟩
    ∧ set_speed ChannelBehavior.timeout 5 = ⟨.raised "Speed must be between 10 and 200", 0⟩
    ∧ (set_scene ChannelBehavior.timeout 33).exchanges = 1 :=
  range_validation_tool_and_controller ChannelBehavior.timeout 0 256 0 0 50 7000 50 33 5
    (by decide) (by decide) (by decide) (by decide) (by decide)

/-! ### C2 -/

/-- C2: the Command Channel does NOT release its socket on every exit path.
`sock.close()` is reached only on the success path; on a timeout and on a
parse failure the handlers return `None` with the socket left open. -/
theorem socket_closed_only_on_success :
    (send_command_traced ChannelBehavior.timeout getPilotCommand).socketClosed = false
    ∧ (send_command_traced ChannelBehavior.garbled getPilotCommand).socketClosed = false
    ∧ (send_command_traced ChannelBehavior.transportError getPilotCommand).socketClosed = false
    ∧ (send_command_traced (ChannelBehavior.replyWith successReply)
        getPilotCommand).socketClosed = true :=
  ⟨rfl, rfl, rfl, rfl⟩

/-! ### C3 -/

/-- C3 counterexample: a timed-out exchange and a garbled (unparseable)
reply both reach the caller as the very same value `None` — the two
outcomes are not surfaced as distinguishable error kinds. -/
theorem timeout_garbled_both_none_cex :
    send_command ChannelBehavior.timeout getPilotCommand =
      send_command ChannelBehavior.garbled getPilotCommand
    ∧ send_command ChannelBehavior.timeout getPilotCommand = none :=
  ⟨rfl, rfl⟩

/-- C3 amended: timeout and parse failure are collapsed: for every command,
both produce the single result `None`, carrying no error kind and no
retained raw payload; callers cannot tell the two apart (the distinction
exists only in console logging). -/
theorem timeout_garbled_collapsed (cmd : Json) :
    send_command ChannelBehavior.timeout cmd = send_command ChannelBehavior.garbled cmd
    ∧ send_command ChannelBehavior.timeout cmd = none
    ∧ send_command ChannelBehavior.transportError cmd = none :=
  ⟨rfl, rfl, rfl⟩

/-! ### C7 -/

/-- C7 counterexample: a status reply carrying both an RGB triple and a
scene id is interpreted into a status that reports both the RGB color field
and the scene id — two of the three color-mode fields at once. -/
theorem color_and_scene_cooccur_cex :
    (get_bulb_status (some (Json.obj [("result", Json.obj
      [("r", Json.int 255), ("g", Json.int 0), ("b", Json.int 0),
       ("sceneId", Json.int 2), ("state", Json.bool true)])]))).color =
      some "RGB(255, 0, 0)"
    ∧ (get_bulb_status (some (Json.obj [("result", Json.obj
      [("r", Json.int 255), ("g", Json.int 0), ("b", Json.int 0),
       ("sceneId", Json.int 2), ("state", Json.bool true)])]))).scene_id =
      some (Json.int 2) :=
  ⟨rfl, rfl⟩

/-- C7 amended: only the RGB/color-temperature pair is mutually exclusive
(RGB takes precedence when the `r`,`g`,`b` keys exist); the scene id is
reported independently whenever `sceneId` is present and can co-occur with
either color field. For every raw status, at most one of {RGB triple,
color temperature} appears in the interpreted status. -/
theorem rgb_temp_exclusive (status : Option Json) :
    ((get_bulb_status status).color.isSome
      && (get_bulb_status status).color_temperature.isSome) = false := by
  have hpilot : ∀ pilot : List (String × Json),
      ((interpretPilot pilot).color.isSome
        && (interpretPilot pilot).color_temperature.isSome) = false := by
    intro pilot
    simp only [interpretPilot]
    cases hr : Json.lookup pilot "r" <;>
      cases hg : Json.lookup pilot "g" <;>
      cases hb : Json.lookup pilot "b" <;>
      simp only [hr, hg, hb] <;>
      cases ht : Json.lookup pilot "temp" <;>
      simp [ht]
  cases status with
  | none => rfl
  | some s =>
    cases s <;> try rfl
    case obj kvs =>
      simp only [get_bulb_status]
      cases hres : (Json.lookup kvs "result").getD (Json.obj []) <;>
        simp [hres, hpilot, statusErrorResult]

/-! ### C4 -/

/-- C4: whenever the exchange fails (timeout, unparseable reply, or any
other transport exception — the channel yields no parsed reply), every
capability operation with in-range arguments returns the ordinary failure
value `False` (never a raised exception), `is_online` returns offline, and
the status tool returns the structured offline dict. -/
theorem failed_exchange_returns_failure (ch : ChannelBehavior)
    (hch : ch.failed = true) (b r g bl brt temp brt2 sc sp : Int)
    (hb : 10 ≤ b ∧ b ≤ 100)
    (hrgb : (0 ≤ r ∧ r ≤ 255) ∧ (0 ≤ g ∧ g ≤ 255) ∧ (0 ≤ bl ∧ bl ≤ 255))
    (hbrt : 10 ≤ brt ∧ brt ≤ 100)
    (htemp : 2200 ≤ temp ∧ temp ≤ 6500) (hbrt2 : 10 ≤ brt2 ∧ brt2 ≤ 100)
    (hsp : 10 ≤ sp ∧ sp ≤ 200) :
    (turn_on ch).outcome = OpOutcome.ok false
    ∧ (turn_off ch).outcome = OpOutcome.ok false
    ∧ (set_brightness ch b).outcome = OpOutcome.ok false
    ∧ (set_rgb_color ch r g bl brt).outcome = OpOutcome.ok false
    ∧ (set_color_temperature ch temp brt2).outcome = OpOutcome.ok false
    ∧ (set_scene ch sc).outcome = OpOutcome.ok false
    ∧ (set_speed ch sp).outcome = OpOutcome.ok false
    ∧ is_online ch = false
    ∧ (get_bulb_status (get_status ch)).status = "offline" := by
  have hsend := send_command_of_failed ch hch
  refine ⟨?_, ?_, ?_, ?_, ?_, ?_, ?_, ?_, ?_⟩ <;>
    simp [turn_on, turn_off, set_brightness, set_rgb_color, set_color_temperature,
      set_scene, set_speed, is_online, get_status, get_bulb_status,
      hb.1, hb.2, hrgb.1, hrgb.2.1, hrgb.2.2, hbrt.1, hbrt.2,
      htemp.1, htemp.2, hbrt2.1, hbrt2.2, hsp.1, hsp.2,
      hsend, interpretSetResponse]

/-- C4 witness: a timing-out channel with brightness 50, RGB (255,0,0) at
80, temperature 4000 at 100, scene 2, speed 100. -/
theorem failed_exchange_returns_failure_witness :
    (turn_on ChannelBehavior.timeout).outcome = OpOutcome.ok false
    ∧ (turn_off ChannelBehavior.timeout).outcome = OpOutcome.ok false
    ∧ (set_brightness ChannelBehavior.timeout 50).outcome = OpOutcome.ok false
    ∧ (set_rgb_color ChannelBehavior.timeout 255 0 0 80).outcome = OpOutcome.ok false
    ∧ (set_color_temperature ChannelBehavior.timeout 4000 100).outcome = OpOutcome.ok false
    ∧ (set_scene ChannelBehavior.timeout 2).outcome = OpOutcome.ok false
    ∧ (set_speed ChannelBehavior.timeout 100).outcome = OpOutcome.ok false
    ∧ is_online ChannelBehavior.timeout = false
    ∧ (get_bulb_status (get_status ChannelBehavior.timeout)).status = "offline" :=
  failed_exchange_returns_failure ChannelBehavior.timeout rfl 50 255 0 0 80 4000 100 2 100
    (by decide) (by decide) (by decide) (by decide) (by decide) (by decide)

/-! ### C5 -/

/-- On well-formed replies the code criterion coincides with the spec
criterion `result.success == true`. -/
theorem interpretSetResponse_eq_replySuccess (response : Option Json)
    (h : ∀ j, response = some j → wellFormedReply j = true) :
    interpretSetResponse response = OpOutcome.ok (replySuccess response) := by
  match response with
  | none => rfl
  | some j =>
    have hj := h j rfl
    match j with
    | Json.null | Json.bool _ | Json.int _ | Json.str _ | Json.arr _ =>
      simp [wellFormedReply] at hj
    | Json.obj kvs =>
      simp only [wellFormedReply] at hj
      simp only [interpretSetResponse, replySuccess, Json.getAttrD]
      cases hres : Json.lookup kvs "result" with
      | none => simp [hres, Json.lookup, Json.truthy]
      | some v =>
        rw [hres] at hj
        cases v <;> simp_all
        case obj rkvs =>
          cases hsuc : Json.lookup rkvs "success" with
          | none => simp [hsuc, Json.truthy]
          | some w =>
            rw [hsuc] at hj
            cases w <;> simp_all [Json.truthy]
            case bool bb => cases bb <;> simp

/-- The spec criterion holds exactly when a reply arrived, parsed as a
document, and carries `result.success == true`. -/
theorem replySuccess_eq_true_iff (response : Option Json) :
    replySuccess response = true ↔
    ∃ kvs rkvs, response = some (Json.obj kvs)
      ∧ Json.lookup kvs "result" = some (Json.obj rkvs)
      ∧ Json.lookup rkvs "success" = some (Json.bool true) := by
  constructor
  · intro h
    match response with
    | none => simp [replySuccess] at h
    | some j =>
      match j with
      | Json.null | Json.bool _ | Json.int _ | Json.str _ | Json.arr _ =>
        simp [replySuccess] at h
      | Json.obj kvs =>
        simp only [replySuccess] at h
        cases hres : Json.lookup kvs "result" with
        | none => rw [hres] at h; simp at h
        | some v =>
          rw [hres] at h
          cases v
          case obj rkvs =>
            have h2 : (match Json.lookup rkvs "success" with
                | some (Json.bool true) => true
                | _ => false) = true := h
            cases hsuc : Json.lookup rkvs "success" with
            | none => rw [hsuc] at h2; simp at h2
            | some w =>
              rw [hsuc] at h2
              cases w
              case bool bb =>
                cases bb
                case true => exact ⟨kvs, rkvs, rfl, hres, hsuc⟩
                case false => simp at h2
              all_goals simp at h2
          all_goals simp at h
  · rintro ⟨kvs, rkvs, hresp, hres, hsuc⟩
    subst hresp
    simp [replySuccess, hres, hsuc]

/-- C5: with in-range arguments and a reply on which Python truthiness is
faithful (`result` a document, `success` boolean if present), every
mutating operation reports exactly the spec criterion: success iff a reply
datagram was received, parsed, and contains `result.success == true`; in
particular a reply missing `result` or `success` counts as failure. -/
theorem mutating_success_iff_reply_success (ch : ChannelBehavior)
    (b r g bl brt temp brt2 sc sp : Int)
    (hb : 10 ≤ b ∧ b ≤ 100)
    (hrgb : (0 ≤ r ∧ r ≤ 255) ∧ (0 ≤ g ∧ g ≤ 255) ∧ (0 ≤ bl ∧ bl ≤ 255))
    (hbrt : 10 ≤ brt ∧ brt ≤ 100)
    (htemp : 2200 ≤ temp ∧ temp ≤ 6500) (hbrt2 : 10 ≤ brt2 ∧ brt2 ≤ 100)
    (_hsc : 1 ≤ sc ∧ sc ≤ 32) (hsp : 10 ≤ sp ∧ sp ≤ 200)
    (hwf : ∀ j, ch = ChannelBehavior.replyWith j → wellFormedReply j = true) :
    (turn_on ch).outcome = OpOutcome.ok (replySuccess (channelReply ch))
    ∧ (turn_off ch).outcome = OpOutcome.ok (replySuccess (channelReply ch))
    ∧ (set_brightness ch b).outcome = OpOutcome.ok (replySuccess (channelReply ch))
    ∧ (set_rgb_color ch r g bl brt).outcome = OpOutcome.ok (replySuccess (channelReply ch))
    ∧ (set_color_temperature ch temp brt2).outcome =
        OpOutcome.ok (replySuccess (channelReply ch))
    ∧ (set_scene ch sc).outcome = OpOutcome.ok (replySuccess (channelReply ch))
    ∧ (set_speed ch sp).outcome = OpOutcome.ok (replySuccess (channelReply ch))
    ∧ (replySuccess (channelReply ch) = true ↔
        ∃ kvs rkvs, channelReply ch = some (Json.obj kvs)
          ∧ Json.lookup kvs "result" = some (Json.obj rkvs)
          ∧ Json.lookup rkvs "success" = some (Json.bool true)) := by
  have hwf2 : ∀ j, channelReply ch = some j → wellFormedReply j = true := by
    intro j hj
    cases ch <;> simp [channelReply] at hj
    case replyWith j0 => exact hj ▸ hwf j0 rfl
  have hcore := interpretSetResponse_eq_replySuccess (channelReply ch) hwf2
  have hsend := send_command_eq_channelReply ch
  refine ⟨?_, ?_, ?_, ?_, ?_, ?_, ?_, replySuccess_eq_true_iff (channelReply ch)⟩ <;>
    simp [turn_on, turn_off, set_brightness, set_rgb_color, set_color_temperature,
      set_scene, set_speed,
      hb.1, hb.2, hrgb.1, hrgb.2.1, hrgb.2.2, hbrt.1, hbrt.2,
      htemp.1, htemp.2, hbrt2.1, hbrt2.2, hsp.1, hsp.2,
      hsend, hcore]

/-- C5 witness: a channel replying `\x7bresult: \x7bsuccess: true\x7d\x7d`
with in-range arguments makes every mutating operation report success. -/
theorem mutating_success_iff_reply_success_witness :
    (turn_on (ChannelBehavior.replyWith successReply)).outcome = OpOutcome.ok true
    ∧ (set_brightness (ChannelBehavior.replyWith successReply) 50).outcome =
        OpOutcome.ok true
    ∧ (set_scene (ChannelBehavior.replyWith successReply) 2).outcome = OpOutcome.ok true := by
  have h := mutating_success_iff_reply_success (ChannelBehavior.replyWith successReply)
    50 255 0 0 80 4000 100 2 100
    (by decide) (by decide) (by decide) (by decide) (by decide) (by decide) (by decide)
    (by intro j hj; cases hj; rfl)
  have hs : replySuccess (channelReply (ChannelBehavior.replyWith successReply)) = true := rfl
  exact ⟨hs ▸ h.1, hs ▸ h.2.2.1, hs ▸ h.2.2.2.2.2.1⟩

/-! ### C6 -/

/-- C6: status interpretation reports power from `state`, brightness when
`dimming` is present, and color by key presence with RGB precedence: the
reply `r=255,g=0,b=0,dimming=80,state=true` yields power on, brightness
80%, RGB(255, 0, 0), no color temperature and no scene; the reply
`temp=4000,dimming=100,state=true` yields power on, brightness 100%, color
temperature 4000K, no RGB and no scene; and whenever `r`,`g`,`b` keys all
exist, a color is reported and the color-temperature field is absent. -/
theorem status_examples_and_rgb_precedence :
    get_bulb_status (some (Json.obj [("result", Json.obj
      [("r", Json.int 255), ("g", Json.int 0), ("b", Json.int 0),
       ("dimming", Json.int 80), ("state", Json.bool true)])])) =
      ⟨BULB_IP, "online", none, some "on", some "80%", some "RGB(255, 0, 0)", none, none⟩
    ∧ get_bulb_status (some (Json.obj [("result", Json.obj
      [("temp", Json.int 4000), ("dimming", Json.int 100), ("state", Json.bool true)])])) =
      ⟨BULB_IP, "online", none, some "on", some "100%", none, some "4000K", none⟩
    ∧ (∀ pilot r g b, Json.lookup pilot "r" = some r → Json.lookup pilot "g" = some g →
        Json.lookup pilot "b" = some b →
        (get_bulb_status (some (Json.obj [("result", Json.obj pilot)]))).color.isSome = true
        ∧ (get_bulb_status (some (Json.obj [("result", Json.obj pilot)]))).color_temperature
            = none) := by
  refine ⟨by rfl, by rfl, ?_⟩
  intro pilot r g b hr hg hb
  constructor <;> simp [get_bulb_status, Json.lookup, interpretPilot, hr, hg, hb]

/-- C6 witness: RGB precedence at a pilot carrying both RGB keys and a
temperature key. -/
theorem status_examples_and_rgb_precedence_witness :
    (get_bulb_status (some (Json.obj [("result", Json.obj
      [("r", Json.int 10), ("g", Json.int 20), ("b", Json.int 30),
       ("temp", Json.int 3000)])]))).color_temperature = none :=
  (status_examples_and_rgb_precedence.2.2
    [("r", Json.int 10), ("g", Json.int 20), ("b", Json.int 30), ("temp", Json.int 3000)]
    (Json.int 10) (Json.int 20) (Json.int 30) rfl rfl rfl).2

/-! ### C8 -/

/-- The probe loop accumulates exactly the responding candidates, in scan
order, after whatever is already in the accumulator. -/
theorem discoverLoop_eq_filter (probe : String → ChannelBehavior)
    (ips acc : List String) :
    discoverLoop probe acc ips = acc ++ ips.filter (respondsToProbe probe) := by
  induction ips generalizing acc with
  | nil => simp [discoverLoop]
  | cons ip rest ih =>
    by_cases h : respondsToProbe probe ip
    · simp [discoverLoop, h, ih, List.filter_cons]
    · simp [discoverLoop, h, ih, List.filter_cons]

/-- C8 counterexample: a candidate whose probe reply parses as the bare
JSON number 42 — not remotely the expected status shape — is still
classified as a bulb and returned by discovery. -/
theorem any_json_reply_counts_cex :
    discover_bulbs (ScanOutcome.ok ["10.0.0.1"])
      (fun _ => ChannelBehavior.replyWith (Json.int 42)) = ["10.0.0.1"]
    ∧ expectedStatusShape (Json.int 42) = false :=
  ⟨rfl, rfl⟩

/-- C8 amended: over a duplicate-free candidate list, discovery returns
exactly the candidates whose probe yielded some parsed reply, in scan
order (a sublist of the candidates) and without duplicates — but the
classification checks only that a reply arrived and parsed as JSON, not
that it matches the expected response shape. -/
theorem discovery_filter_subset (probe : String → ChannelBehavior)
    (ips : List String) (h : ips.Nodup) :
    discover_bulbs (ScanOutcome.ok ips) probe = ips.filter (respondsToProbe probe)
    ∧ (∀ ip, ip ∈ discover_bulbs (ScanOutcome.ok ips) probe ↔
        ip ∈ ips ∧ respondsToProbe probe ip = true)
    ∧ (discover_bulbs (ScanOutcome.ok ips) probe).Sublist ips
    ∧ (discover_bulbs (ScanOutcome.ok ips) probe).Nodup
    ∧ (∀ ip, respondsToProbe probe ip =
        (send_command (probe ip) getPilotCommand).isSome) := by
  have he : discover_bulbs (ScanOutcome.ok ips) probe =
      ips.filter (respondsToProbe probe) := by
    simp [discover_bulbs, discoverLoop_eq_filter]
  refine ⟨he, ?_, ?_, ?_, ?_⟩
  · intro ip; rw [he]; simp [List.mem_filter]
  · rw [he]; exact List.filter_sublist ips
  · rw [he]; exact h.filter _
  · intro ip; rfl

/-- C8 witness: of two distinct candidates, only the first replies; the
scan returns exactly that one. -/
theorem discovery_filter_subset_witness :
    (["10.0.0.1", "10.0.0.2"] : List String).Nodup
    ∧ discover_bulbs (ScanOutcome.ok ["10.0.0.1", "10.0.0.2"])
        (fun ip => if ip = "10.0.0.1" then ChannelBehavior.replyWith successReply
                   else ChannelBehavior.timeout) = ["10.0.0.1"] := by
  refine ⟨by decide, ?_⟩
  rw [(discovery_filter_subset
    (fun ip => if ip = "10.0.0.1" then ChannelBehavior.replyWith successReply
               else ChannelBehavior.timeout)
    ["10.0.0.1", "10.0.0.2"] (by decide)).1]
  rfl

/-! ### C9 -/

/-- C9 counterexample: when the host sweep exceeds its bound the scan
returns the bare empty list — the very same value a completed scan with no
responding candidate returns, so no degraded or partial-result signal
reaches the caller. -/
theorem scan_timeout_bare_empty_cex :
    discover_bulbs ScanOutcome.timedOut (fun _ => ChannelBehavior.timeout) = []
    ∧ discover_bulbs ScanOutcome.timedOut (fun _ => ChannelBehavior.timeout) =
        discover_bulbs (ScanOutcome.ok []) (fun _ => ChannelBehavior.timeout) :=
  ⟨rfl, rfl⟩

/-- C9 amended: when the host-enumeration subprocess exceeds its 120s
bound (and likewise when nmap is missing or any other exception occurs),
discovery catches the exception and returns the empty list. No candidate
has been probed at that point, and the result carries no degraded or
partial-result signal: it is identical to the result of a completed scan
in which no candidate responded. -/
theorem scan_timeout_returns_empty (probe probe2 : String → ChannelBehavior)
    (ips : List String) (h : ∀ ip ∈ ips, respondsToProbe probe2 ip = false) :
    discover_bulbs ScanOutcome.timedOut probe = []
    ∧ discover_bulbs ScanOutcome.timedOut probe =
        discover_bulbs (ScanOutcome.ok ips) probe2
    ∧ discover_bulbs ScanOutcome.nmapMissing probe = []
    ∧ discover_bulbs ScanOutcome.otherError probe = [] := by
  have hfil : ips.filter (respondsToProbe probe2) = [] := by
    rw [List.filter_eq_nil_iff]
    intro a ha
    simp [h a ha]
  refine ⟨rfl, ?_, rfl, rfl⟩
  simp [discover_bulbs, discoverLoop_eq_filter, hfil]

/-- C9 witness: timed-out sweep versus a completed sweep over one
candidate whose reply is unparseable. -/
theorem scan_timeout_returns_empty_witness :
    discover_bulbs ScanOutcome.timedOut (fun _ => ChannelBehavior.timeout) = []
    ∧ discover_bulbs ScanOutcome.timedOut (fun _ => ChannelBehavior.timeout) =
        discover_bulbs (ScanOutcome.ok ["192.168.1.5"]) (fun _ => ChannelBehavior.garbled) := by
  have h := scan_timeout_returns_empty (fun _ => ChannelBehavior.timeout)
    (fun _ => ChannelBehavior.garbled) ["192.168.1.5"] (by intro ip _; rfl)
  exact ⟨h.1, h.2.1⟩

/-! ### C10 -/

/-- C10: a parsed status reply with no `result` field is interpreted as an
online device with power off and no brightness, color or scene fields — not
as a protocol error — and is indistinguishable from a healthy reply
reporting `state = false`; at the controller, such a reply also counts as
online. -/
theorem missing_result_is_online_off :
    get_bulb_status (some (Json.obj [])) =
      ⟨BULB_IP, "online", none, some "off", none, none, none, none⟩
    ∧ get_bulb_status (some (Json.obj [])) =
        get_bulb_status (some (Json.obj [("result", Json.obj [("state", Json.bool false)])]))
    ∧ is_online (ChannelBehavior.replyWith (Json.obj [])) = true :=
  ⟨rfl, rfl, rfl⟩

end WizBulb
